import Mathlib

/-!
Verification development for the KORA clustering core
(`src/clustering/kmeans_clustering.py` and `src/clustering/cluster_analyzer.py`).

Data matrices are idealised as lists of rows of real numbers (the source works
in 64-bit floating point; we use exact real arithmetic).  Cluster labels are
natural numbers.  Python `None` is modelled by `Option`; a raised `ValueError`
is modelled by the `Except.error` branch of an `Except String _` result.

The repository delegates the actual k-means estimator and the three quality
metrics to scikit-learn, which is not part of the repository; those callees
are modelled from the specification (sections 4.1 to 4.3) and are marked
`Modelled from the spec:` in their doc comments.  Everything else is a direct
translation of the Python source.
-/

namespace KORA

noncomputable section

abbrev Vec := List ℝ
abbrev Mat := List Vec
abbrev Labels := List ℕ

/-- Componentwise difference of two row vectors (`numpy` broadcasting of `-`). -/
def vsub (x y : Vec) : Vec := List.zipWith (fun a b => a - b) x y

/-- Componentwise sum of two row vectors. -/
def vadd (x y : Vec) : Vec := List.zipWith (fun a b => a + b) x y

/-- Sum of squares of the entries of a vector. -/
def sumSq (x : Vec) : ℝ := (x.map (fun a => a ^ 2)).sum

/-- Euclidean norm, `np.linalg.norm`. -/
def norm2 (x : Vec) : ℝ := Real.sqrt (sumSq x)

/-- Squared Euclidean distance between two rows. -/
def sqDist (x y : Vec) : ℝ := sumSq (vsub x y)

/-- Arithmetic mean of a list of reals (`np.mean`; the empty list gives `0/0 = 0`). -/
def rmean (l : List ℝ) : ℝ := l.sum / l.length

/-- Population standard deviation, `np.std`. -/
def rstd (l : List ℝ) : ℝ := Real.sqrt (rmean (l.map (fun x => (x - rmean l) ^ 2)))

/-- Sum of a list of row vectors (empty list gives the empty row). -/
def vecSum : Mat → Vec
  | [] => []
  | v :: vs => vs.foldl vadd v

/-- Columnwise mean of a list of rows, `np.mean(_, axis=0)`. -/
def vecMean (m : Mat) : Vec := (vecSum m).map (fun a => a / m.length)

/-- Minimum of a list of reals (0 on the empty list, which never occurs at use sites). -/
def listMin : List ℝ → ℝ
  | [] => 0
  | x :: xs => xs.foldl min x

/-- Maximum of a list of reals (0 on the empty list). -/
def listMax : List ℝ → ℝ
  | [] => 0
  | x :: xs => xs.foldl max x

/-- Number of distinct labels, `len(np.unique(labels))`. -/
def uniqueCount (l : Labels) : ℕ := l.eraseDups.length

/-- Rows of `data` whose label equals `c`: the boolean-mask selection
`data[labels == c]` used throughout the Python source. -/
def clusterPoints (data : Mat) (labels : Labels) (c : ℕ) : Mat :=
  ((data.zip labels).filter (fun p => p.2 == c)).map Prod.fst

/-- Centroid (mean point) of cluster `c`, `np.mean(data[labels == c], axis=0)`. -/
def centroidOf (data : Mat) (labels : Labels) (c : ℕ) : Vec :=
  vecMean (clusterPoints data labels c)

/-- Distances of the members of cluster `c` to that cluster's centroid. -/
def clusterDistances (data : Mat) (labels : Labels) (c : ℕ) : List ℝ :=
  (clusterPoints data labels c).map (fun p => norm2 (vsub p (centroidOf data labels c)))

/-- Standard deviation of the member-to-centroid distances of cluster `c`. -/
def distStd (data : Mat) (labels : Labels) (c : ℕ) : ℝ :=
  rstd (clusterDistances data labels c)

/-- Modelled from the spec: scikit-learn's `silhouette_samples` is not part of
the repository.  Section 4.3 defines the per-sample silhouette score: `a i` is
the mean distance to the other members of the own cluster, `b i` the minimum
over other clusters of the mean distance to that cluster's members, the score
is `(b - a) / max a b`, with singleton clusters (and a zero denominator)
scoring 0. -/
def silSample (X : Mat) (labels : Labels) (i : ℕ) : ℝ :=
  let xi := X.getD i []
  let li := labels.getD i 0
  let ownOthers :=
    (((X.zip labels).enum.filter (fun p => p.2.2 == li && p.1 != i)).map (fun p => p.2.1))
  if ownOthers.isEmpty then 0
  else
    let a := rmean (ownOthers.map (fun y => norm2 (vsub xi y)))
    let others := labels.eraseDups.filter (fun c => c != li)
    let b := listMin (others.map (fun c =>
      rmean ((clusterPoints X labels c).map (fun y => norm2 (vsub xi y)))))
    if max a b = 0 then 0 else (b - a) / max a b

/-- Modelled from the spec: the per-sample silhouette vector, one score per row. -/
def silhouette_samples (X : Mat) (labels : Labels) : List ℝ :=
  (List.range X.length).map (silSample X labels)

/-- Modelled from the spec: the aggregate silhouette score is the arithmetic
mean of the per-sample scores. -/
def silhouette_score (X : Mat) (labels : Labels) : ℝ :=
  rmean (silhouette_samples X labels)

/-- Modelled from the spec: the between/within dispersion ratio
(Calinski-Harabasz style) of section 4.3, `(B/(k-1)) / (W/(n-k))`. -/
def calinski_harabasz_score (X : Mat) (labels : Labels) : ℝ :=
  let ks := labels.eraseDups
  let g := vecMean X
  let B := (ks.map (fun c =>
    ((clusterPoints X labels c).length : ℝ) * sqDist (centroidOf X labels c) g)).sum
  let W := (ks.map (fun c =>
    ((clusterPoints X labels c).map (fun p => sqDist p (centroidOf X labels c))).sum)).sum
  (B / ((ks.length : ℝ) - 1)) / (W / ((X.length : ℝ) - (ks.length : ℝ)))

/-- Modelled from the spec: the cluster-similarity index (Davies-Bouldin style)
of section 4.3: mean over clusters of the maximal ratio
`(scatter i + scatter j) / dist(centroid i, centroid j)`. -/
def davies_bouldin_score (X : Mat) (labels : Labels) : ℝ :=
  let ks := labels.eraseDups
  let scatter := fun c => rmean (clusterDistances X labels c)
  rmean (ks.map (fun c =>
    listMax ((ks.filter (fun c2 => c2 != c)).map (fun c2 =>
      (scatter c + scatter c2) / norm2 (vsub (centroidOf X labels c) (centroidOf X labels c2))))))

/-! ## Modelled k-means estimator

The repository constructs `sklearn.cluster.KMeans(n_clusters, max_iter,
random_state)` and calls its `fit`/`predict`.  scikit-learn is not part of the
repository, so the estimator is modelled from the specification: multi-restart
Lloyd's algorithm with k-means++ seeding, all restarts drawing from one
deterministic pseudo-random sequence derived from the seed (sections 4.1 and
4.2). -/

/-- Modelled from the spec: one step of the deterministic pseudo-random
sequence from which all restarts draw (a linear congruential generator). -/
def prngNext (s : ℕ) : ℕ := (s * 1103515245 + 12345) % 2147483648

/-- Index of the centroid nearest to `x` under squared Euclidean distance,
ties broken by lowest centroid index (section 4.1 step 1). -/
def nearestIdx (cs : Mat) (x : Vec) : ℕ :=
  cs.enum.foldl
    (fun best c => if sqDist c.2 x < sqDist (cs.getD best []) x then c.1 else best) 0

/-- Squared distance from `x` to its nearest centroid among `cs`. -/
def nearestSqDist (cs : Mat) (x : Vec) : ℝ := sqDist x (cs.getD (nearestIdx cs x) [])

/-- The sample farthest from its own assigned centroid, ties broken by lowest
sample index: the reseeding target of the empty-cluster policy (section 4.1
step 3). -/
def farthestSample (X : Mat) (cs : Mat) : Vec :=
  (X.foldl
    (fun best x =>
      if nearestSqDist cs x > nearestSqDist cs best then x else best)
    (X.getD 0 []))

/-- One Lloyd iteration: assign every sample to its nearest centroid, then
replace each centroid by the mean of its members, reseeding empty clusters to
the farthest sample (section 4.1 steps 1 to 3). -/
def lloydStep (X : Mat) (k : ℕ) (cs : Mat) : Mat :=
  let labels := X.map (nearestIdx cs)
  (List.range k).map (fun c =>
    let pts := clusterPoints X labels c
    if pts.isEmpty then farthestSample X cs else vecMean pts)

/-- Iterate Lloyd steps up to the iteration budget, stopping early once the
centroids are unchanged (section 4.1 step 4). -/
def lloydIter (X : Mat) (k : ℕ) : ℕ → Mat → Mat
  | 0, cs => cs
  | n + 1, cs =>
    let cs2 := lloydStep X k cs
    if cs2 = cs then cs else lloydIter X k n cs2

/-- First index whose weight the running draw `u` does not exceed, walking the
cumulative weight list (the proportional draw of k-means++ seeding). -/
def pickByWeight : List ℝ → ℝ → ℕ → ℕ
  | [], _, i => i
  | w :: ws, u, i => if u ≤ w then i else pickByWeight ws (u - w) (i + 1)

/-- Modelled from the spec: the k-means++ draws after the first centroid; each
further centroid is a sample drawn with probability proportional to its
squared distance to the nearest already-chosen centroid, using the shared
pseudo-random sequence. -/
def kppAux (X : Mat) : ℕ → Mat → ℕ → Mat × ℕ
  | 0, cs, s => (cs, s)
  | n + 1, cs, s =>
    let s2 := prngNext s
    let ws := X.map (nearestSqDist cs)
    let u := (((s2 % 1000000 : ℕ) : ℝ) / 1000000) * ws.sum
    let i := pickByWeight ws u 0
    kppAux X n (cs ++ [X.getD i []]) s2

/-- Modelled from the spec: k-means++ seeding; the first centroid is drawn
uniformly, the remaining `k - 1` proportionally (section 4.2). -/
def seedCentroids (X : Mat) (k : ℕ) (s : ℕ) : Mat × ℕ :=
  let s1 := prngNext s
  match k with
  | 0 => ([], s1)
  | k2 + 1 => kppAux X k2 [X.getD (s1 % X.length) []] s1

/-- Inertia of a centroid set on `X`: sum over samples of the squared distance
to the nearest centroid. -/
def inertiaOf (X : Mat) (cs : Mat) : ℝ := (X.map (nearestSqDist cs)).sum

/-- Modelled from the spec: run the remaining restarts, threading the shared
pseudo-random state and keeping the result of lowest inertia, ties broken by
first-found restart (section 4.2). -/
def restartsAux (X : Mat) (k maxIter : ℕ) : ℕ → ℕ → Option (Mat × ℝ) → Mat × ℝ
  | 0, _, best => best.getD ([], 0)
  | n + 1, s, best =>
    let seeded := seedCentroids X k s
    let cs := lloydIter X k maxIter seeded.1
    let inr := inertiaOf X cs
    let best2 := match best with
      | none => some (cs, inr)
      | some b => if inr < b.2 then some (cs, inr) else some b
    restartsAux X k maxIter n seeded.2 best2

/-- Result of one estimator fit: labels, centers and inertia. -/
structure KMRes where
  labels : Labels
  centers : Mat
  inertia : ℝ

/-- Modelled from the spec: `sklearn.cluster.KMeans(...).fit(X)` as described
in sections 4.1 and 4.2 — ten restarts of Lloyd's algorithm with k-means++
seeding, entirely determined by `(k, maxIter, seed, X)`.  A missing seed
(`none`) is modelled by the fixed seed 0: the pure embedding cannot express
the non-determinism the spec attaches to an omitted seed. -/
def kmeansFit (k maxIter : ℕ) (seed : Option ℤ) (X : Mat) : KMRes :=
  let s0 := match seed with
    | some z => z.natAbs
    | none => 0
  let best := restartsAux X k maxIter 10 s0 none
  { labels := X.map (nearestIdx best.1), centers := best.1, inertia := best.2 }

/-! ## The `KMeansClustering` engine (`kmeans_clustering.py`) -/

/-- The state of a `KMeansClustering` instance: the constructor parameters
(which also parametrise the wrapped `KMeans` model, never mutated afterwards)
and the fitted attributes `labels_`, `cluster_centers_`, `inertia_`, all
`None` until `fit` runs. -/
structure EngineState where
  n_clusters : ℕ
  max_iter : ℕ
  random_state : Option ℤ
  labels_ : Option Labels
  cluster_centers_ : Option Mat
  inertia_ : Option ℝ

/-- `KMeansClustering.__init__`: store the parameters, build the model, leave
the fitted attributes `None` (Python defaults: `n_clusters=3`, `max_iter=300`,
`random_state=None`). -/
def mkEngine (n_clusters max_iter : ℕ) (random_state : Option ℤ) : EngineState :=
  { n_clusters := n_clusters, max_iter := max_iter, random_state := random_state,
    labels_ := none, cluster_centers_ := none, inertia_ := none }

/-- `KMeansClustering.fit`: run the wrapped estimator and store its labels,
centers and inertia. -/
def fit (st : EngineState) (X : Mat) : EngineState :=
  let r := kmeansFit st.n_clusters st.max_iter st.random_state X
  { st with labels_ := some r.labels, cluster_centers_ := some r.centers,
            inertia_ := some r.inertia }

/-- `KMeansClustering.predict`: delegate to the wrapped model's `predict`
(nearest stored centroid, modelled from spec section 4.2; an unfitted model
raises).  The method assigns to no attribute, so the instance state is
returned unchanged. -/
def predict (st : EngineState) (X : Mat) : Except String Labels × EngineState :=
  match st.cluster_centers_ with
  | none => (Except.error "This KMeans instance is not fitted yet.", st)
  | some cs => (Except.ok (X.map (nearestIdx cs)), st)

/-- The metrics dictionary built by `KMeansClustering.evaluate`.  The
`inertia` key is always written (holding the possibly-`None` attribute
`self.inertia_`); the other three keys are present only when the guard
`len(np.unique(labels)) > 1` holds, so `none` there means the key is absent. -/
structure MetricsRecord where
  inertia : Option ℝ
  silhouette_score : Option ℝ
  calinski_harabasz_score : Option ℝ
  davies_bouldin_score : Option ℝ

/-- The body of `evaluate` after the labels have been resolved: write
`inertia`, then the three quality metrics only when more than one distinct
cluster is present. -/
def computeMetrics (st : EngineState) (X : Mat) (labels : Labels) : MetricsRecord :=
  if uniqueCount labels > 1 then
    { inertia := st.inertia_,
      silhouette_score := some (silhouette_score X labels),
      calinski_harabasz_score := some (calinski_harabasz_score X labels),
      davies_bouldin_score := some (davies_bouldin_score X labels) }
  else
    { inertia := st.inertia_, silhouette_score := none,
      calinski_harabasz_score := none, davies_bouldin_score := none }

/-- `KMeansClustering.evaluate`: if no labels are supplied fall back to the
stored `labels_`, raising when the model is not trained; then build the
metrics dictionary. -/
def evaluate (st : EngineState) (X : Mat) (labels? : Option Labels) :
    Except String MetricsRecord :=
  match labels? with
  | some l => Except.ok (computeMetrics st X l)
  | none =>
    match st.labels_ with
    | none => Except.error "Model is not trained. Call fit() or fit_predict() method first."
    | some l => Except.ok (computeMetrics st X l)

/-- `KMeansClustering.optimal_k_elbow`: default the k range to `1..10`, fit a
fresh `KMeans(k, self.max_iter, self.random_state)` for each `k` in order,
collect the inertias, and return both sequences. -/
def optimal_k_elbow (st : EngineState) (X : Mat) (k_range? : Option (List ℕ)) :
    List ℕ × List ℝ :=
  let ks := k_range?.getD (List.range' 1 10)
  (ks, ks.map (fun k => (kmeansFit k st.max_iter st.random_state X).inertia))

/-! ## The `ClusterAnalyzer` (`cluster_analyzer.py`) -/

/-- `ClusterAnalyzer.get_silhouette_values`: with at most one distinct cluster
return `np.zeros(len(data))`, otherwise delegate to `silhouette_samples`. -/
def get_silhouette_values (data : Mat) (labels : Labels) : List ℝ :=
  if uniqueCount labels ≤ 1 then List.replicate data.length 0
  else silhouette_samples data labels

/-- Python default of the `threshold` parameter of
`ClusterAnalyzer.find_outliers`. -/
def find_outliers_threshold_default : ℝ := 2.0

/-- The `method == 'distance'` branch of `find_outliers`: walk
`enumerate(zip(data, labels))` and collect the indices whose distance to the
own-cluster centroid strictly exceeds `threshold` times the standard deviation
of that cluster's member distances. -/
def distanceOutliers (data : Mat) (labels : Labels) (threshold : ℝ) : List ℕ :=
  (((data.zip labels).enum.filter (fun p =>
      decide (norm2 (vsub p.2.1 (centroidOf data labels p.2.2)) >
        threshold * distStd data labels p.2.2))).map Prod.fst)

/-- `ClusterAnalyzer.find_outliers`: dispatch on the method name; the
`silhouette` branch keeps the indices whose per-sample silhouette value is
strictly below the threshold; any other name raises `ValueError`. -/
def find_outliers (data : Mat) (labels : Labels) (method : String) (threshold : ℝ) :
    Except String (List ℕ) :=
  if method = "distance" then
    Except.ok (distanceOutliers data labels threshold)
  else if method = "silhouette" then
    Except.ok (((get_silhouette_values data labels).enum.filter
      (fun p => decide (p.2 < threshold))).map Prod.fst)
  else
    Except.error ("Unknown outlier detection method: " ++ method)

/-! ## Observations used in theorem statements -/

/-- Sample `i` is flagged by an outlier-detector result: the call returned
normally and `i` is in the returned index list. -/
def flagged (r : Except String (List ℕ)) (i : ℕ) : Prop :=
  ∃ out, r = Except.ok out ∧ i ∈ out

/-- Whether an `evaluate`-style call raised. -/
def raised {α : Type} : Except String α → Bool
  | Except.error _ => true
  | Except.ok _ => false

/-- Whether an `evaluate` result carries a `silhouette_score` key. -/
def silhouettePresent (r : Except String MetricsRecord) : Bool :=
  match r with
  | Except.ok m => m.silhouette_score.isSome
  | Except.error _ => false

end

/-! ## Theorems -/

/-- An index survives the `enumerate`-filter-project idiom of the Python
comprehensions exactly when the element at that index satisfies the filter. -/
theorem mem_map_fst_filter_enum {α : Type} (q : ℕ × α → Bool) (i : ℕ) (l : List α) :
    i ∈ ((l.enum.filter q).map Prod.fst) ↔ ∃ a, l[i]? = some a ∧ q (i, a) = true := by
  constructor
  · intro h
    rcases List.mem_map.mp h with ⟨pr, hpr, hfst⟩
    rcases List.mem_filter.mp hpr with ⟨hmem, hq⟩
    rcases pr with ⟨j, a⟩
    cases hfst
    exact ⟨a, List.mk_mem_enum_iff_getElem?.mp hmem, hq⟩
  · rintro ⟨a, hget, hq⟩
    exact List.mem_map.mpr ⟨(i, a),
      List.mem_filter.mpr ⟨List.mk_mem_enum_iff_getElem?.mpr hget, hq⟩, rfl⟩

/-- C4: `evaluate` raises exactly when no assignments are supplied and the
model has not been fitted; a supplied assignment vector or a fitted model
always yields a metrics record. -/
theorem evaluate_error_iff_missing_labels (st : EngineState) (X : Mat)
    (labels? : Option Labels) :
    raised (evaluate st X labels?) = true ↔ labels? = none ∧ st.labels_ = none := by
  rcases labels? with _ | l
  · rcases h : st.labels_ with _ | l2 <;> simp [evaluate, raised, h]
  · simp [evaluate, raised]

/-- C7: calling `find_outliers` with a method other than `distance` or
`silhouette` raises a `ValueError` naming the unrecognized method, never a
silent empty result. -/
theorem find_outliers_unknown_method_error (data : Mat) (labels : Labels)
    (method : String) (t : ℝ) (h1 : method ≠ "distance") (h2 : method ≠ "silhouette") :
    find_outliers data labels method t
      = Except.error ("Unknown outlier detection method: " ++ method) := by
  simp [find_outliers, h1, h2]

/-- Witness for C7 at the concrete method name `dbscan`. -/
theorem find_outliers_unknown_method_error_witness :
    find_outliers [[0]] [0] "dbscan" 2
      = Except.error ("Unknown outlier detection method: " ++ "dbscan") :=
  find_outliers_unknown_method_error [[0]] [0] "dbscan" 2 (by decide) (by decide)

/-- C8: with at most one distinct cluster label, the per-sample silhouette
computation short-circuits to a vector of `n` zeros. -/
theorem get_silhouette_values_single_cluster_zeros (data : Mat) (labels : Labels)
    (h : uniqueCount labels ≤ 1) :
    get_silhouette_values data labels = List.replicate data.length 0 := by
  simp [get_silhouette_values, h]

/-- Witness for C8 on a three-sample matrix whose labels are all equal. -/
theorem get_silhouette_values_single_cluster_zeros_witness :
    get_silhouette_values [[1], [2], [3]] [7, 7, 7]
      = List.replicate (List.length ([[1], [2], [3]] : Mat)) 0 :=
  get_silhouette_values_single_cluster_zeros [[1], [2], [3]] [7, 7, 7] (by decide)

/-- C1: two engines built with the same `n_clusters`, `max_iter` and the same
fixed integer seed store bit-identical labels, centers and inertia after
fitting the same matrix (the whole pipeline is a pure function of those
parameters and the input). -/
theorem fit_deterministic_for_fixed_seed (e1 e2 : EngineState) (X : Mat)
    (hn : e1.n_clusters = e2.n_clusters) (hm : e1.max_iter = e2.max_iter)
    (hs : e1.random_state = e2.random_state) (hseed : ∃ z, e1.random_state = some z) :
    (fit e1 X).labels_ = (fit e2 X).labels_ ∧
    (fit e1 X).cluster_centers_ = (fit e2 X).cluster_centers_ ∧
    (fit e1 X).inertia_ = (fit e2 X).inertia_ := by
  refine ⟨?_, ?_, ?_⟩ <;> simp [fit, hn, hm, hs]

/-- Witness for C1: two freshly constructed engines with seed 42. -/
theorem fit_deterministic_for_fixed_seed_witness :
    (fit (mkEngine 2 5 (some 42)) [[0], [1]]).labels_
      = (fit (mkEngine 2 5 (some 42)) [[0], [1]]).labels_ ∧
    (fit (mkEngine 2 5 (some 42)) [[0], [1]]).cluster_centers_
      = (fit (mkEngine 2 5 (some 42)) [[0], [1]]).cluster_centers_ ∧
    (fit (mkEngine 2 5 (some 42)) [[0], [1]]).inertia_
      = (fit (mkEngine 2 5 (some 42)) [[0], [1]]).inertia_ :=
  fit_deterministic_for_fixed_seed (mkEngine 2 5 (some 42)) (mkEngine 2 5 (some 42))
    [[0], [1]] rfl rfl rfl ⟨42, rfl⟩

/-- C6: `optimal_k_elbow` returns the supplied k sequence unmodified, paired
with an inertia list of the same length holding, in input order, the inertia
of an independent fit at each k; with no sequence supplied the k range
defaults to `1..10`.  No elbow point is selected. -/
theorem optimal_k_elbow_returns_pairs (st : EngineState) (X : Mat) (ks : List ℕ)
    (hne : ks ≠ []) :
    (optimal_k_elbow st X (some ks)).1 = ks ∧
    (optimal_k_elbow st X (some ks)).2.length = ks.length ∧
    (optimal_k_elbow st X (some ks)).2
      = ks.map (fun k => (kmeansFit k st.max_iter st.random_state X).inertia) ∧
    (optimal_k_elbow st X none).1 = [1, 2, 3, 4, 5, 6, 7, 8, 9, 10] := by
  refine ⟨rfl, ?_, rfl, rfl⟩
  simp [optimal_k_elbow]

/-- Witness for C6 on the k sequence `[1, 2]`. -/
theorem optimal_k_elbow_returns_pairs_witness :
    (optimal_k_elbow (mkEngine 3 300 none) [[0], [1]] (some [1, 2])).1 = [1, 2] ∧
    (optimal_k_elbow (mkEngine 3 300 none) [[0], [1]] (some [1, 2])).2.length
      = List.length [1, 2] ∧
    (optimal_k_elbow (mkEngine 3 300 none) [[0], [1]] (some [1, 2])).2
      = List.map (fun k => (kmeansFit k (mkEngine 3 300 none).max_iter
          (mkEngine 3 300 none).random_state [[0], [1]]).inertia) [1, 2] ∧
    (optimal_k_elbow (mkEngine 3 300 none) [[0], [1]] none).1
      = [1, 2, 3, 4, 5, 6, 7, 8, 9, 10] :=
  optimal_k_elbow_returns_pairs (mkEngine 3 300 none) [[0], [1]] [1, 2] (by decide)

/-- C9: on a fitted model, `predict` leaves the stored centroids, assignments
and inertia unchanged. -/
theorem predict_preserves_state (st : EngineState) (X : Mat)
    (h : ∃ cs, st.cluster_centers_ = some cs) :
    (predict st X).2.cluster_centers_ = st.cluster_centers_ ∧
    (predict st X).2.labels_ = st.labels_ ∧
    (predict st X).2.inertia_ = st.inertia_ := by
  rcases h with ⟨cs, hcs⟩
  simp [predict, hcs]

/-- Witness for C9 on a concrete fitted state. -/
theorem predict_preserves_state_witness :
    (predict ⟨2, 5, some 1, some [0, 1], some [[0], [1]], some 0⟩ [[5]]).2.cluster_centers_
      = (⟨2, 5, some 1, some [0, 1], some [[0], [1]], some 0⟩ : EngineState).cluster_centers_ ∧
    (predict ⟨2, 5, some 1, some [0, 1], some [[0], [1]], some 0⟩ [[5]]).2.labels_
      = (⟨2, 5, some 1, some [0, 1], some [[0], [1]], some 0⟩ : EngineState).labels_ ∧
    (predict ⟨2, 5, some 1, some [0, 1], some [[0], [1]], some 0⟩ [[5]]).2.inertia_
      = (⟨2, 5, some 1, some [0, 1], some [[0], [1]], some 0⟩ : EngineState).inertia_ :=
  predict_preserves_state ⟨2, 5, some 1, some [0, 1], some [[0], [1]], some 0⟩ [[5]]
    ⟨[[0], [1]], rfl⟩

/-- C10: `evaluate` on an unfitted model with supplied assignments holding
more than one distinct cluster does not raise; it returns a record whose
quality metrics are computed from the supplied assignments while the
`inertia` entry carries the unfitted attribute `None`. -/
theorem evaluate_unfitted_with_labels (st : EngineState) (X : Mat) (l : Labels)
    (hL : st.labels_ = none) (hI : st.inertia_ = none) (hu : uniqueCount l > 1) :
    evaluate st X (some l) = Except.ok
      { inertia := none,
        silhouette_score := some (silhouette_score X l),
        calinski_harabasz_score := some (calinski_harabasz_score X l),
        davies_bouldin_score := some (davies_bouldin_score X l) } := by
  simp [evaluate, computeMetrics, hu, hI]

/-- Witness for C10 on a freshly constructed engine and two singleton
clusters. -/
theorem evaluate_unfitted_with_labels_witness :
    evaluate (mkEngine 3 300 none) [[0], [4]] (some [0, 1]) = Except.ok
      { inertia := none,
        silhouette_score := some (silhouette_score [[0], [4]] [0, 1]),
        calinski_harabasz_score := some (calinski_harabasz_score [[0], [4]] [0, 1]),
        davies_bouldin_score := some (davies_bouldin_score [[0], [4]] [0, 1]) } :=
  evaluate_unfitted_with_labels (mkEngine 3 300 none) [[0], [4]] [0, 1] rfl rfl (by decide)

/-- C3, counterexample: with every sample its own cluster (k = n = 2) the
record returned by `evaluate` still carries a `silhouette_score` entry — the
guard `len(np.unique(labels)) > 1` holds, so the degenerate k = n case is not
omitted as the claim states. -/
theorem evaluate_presents_silhouette_when_k_eq_n :
    silhouettePresent (evaluate (mkEngine 3 300 none) [[0], [9]] (some [0, 1])) = true := by
  have h : uniqueCount [0, 1] > 1 := by decide
  simp [evaluate, computeMetrics, silhouettePresent, h]

/-- C3, amended: `evaluate` omits the silhouette, dispersion-ratio and
cluster-similarity entries (keeping `inertia`) and raises no error exactly in
the single-cluster case, i.e. when the assignments hold at most one distinct
label; the k = n case does not short-circuit. -/
theorem evaluate_omits_metrics_iff_single_cluster (st : EngineState) (X : Mat)
    (l : Labels) (hu : uniqueCount l ≤ 1) :
    evaluate st X (some l) = Except.ok
      { inertia := st.inertia_, silhouette_score := none,
        calinski_harabasz_score := none, davies_bouldin_score := none } := by
  have h2 : ¬ uniqueCount l > 1 := by omega
  simp [evaluate, computeMetrics, h2]

/-- Witness for the amended C3 with a constant assignment vector. -/
theorem evaluate_omits_metrics_iff_single_cluster_witness :
    evaluate (mkEngine 3 300 none) [[0], [1]] (some [0, 0]) = Except.ok
      { inertia := (mkEngine 3 300 none).inertia_, silhouette_score := none,
        calinski_harabasz_score := none, davies_bouldin_score := none } :=
  evaluate_omits_metrics_iff_single_cluster (mkEngine 3 300 none) [[0], [1]] [0, 0]
    (by decide)

/-- C2: the distance method flags sample `i` exactly when the Euclidean
distance from row `i` to the centroid of its own cluster strictly exceeds
`threshold` times the standard deviation of the member-to-centroid distances
of that cluster; the threshold parameter defaults to 2.0. -/
theorem find_outliers_distance_iff (data : Mat) (labels : Labels) (t : ℝ) (i : ℕ) :
    (flagged (find_outliers data labels "distance" t) i ↔
      ∃ row lab, (data.zip labels)[i]? = some (row, lab) ∧
        norm2 (vsub row (centroidOf data labels lab)) > t * distStd data labels lab)
    ∧ find_outliers_threshold_default = 2 := by
  refine ⟨?_, by norm_num [find_outliers_threshold_default]⟩
  have hfo : find_outliers data labels "distance" t
      = Except.ok (distanceOutliers data labels t) := by
    simp [find_outliers]
  rw [hfo]
  simp only [flagged, Except.ok.injEq, exists_eq_left', distanceOutliers,
    mem_map_fst_filter_enum, decide_eq_true_eq, Prod.exists]

/-- C5: the silhouette method flags sample `i` exactly when its per-sample
silhouette value is strictly below the threshold. -/
theorem find_outliers_silhouette_iff (data : Mat) (labels : Labels) (t : ℝ) (i : ℕ) :
    flagged (find_outliers data labels "silhouette" t) i ↔
      ∃ s, (get_silhouette_values data labels)[i]? = some s ∧ s < t := by
  have hfo : find_outliers data labels "silhouette" t
      = Except.ok (((get_silhouette_values data labels).enum.filter
          (fun p => decide (p.2 < t))).map Prod.fst) := by
    simp [find_outliers]
  rw [hfo]
  simp only [flagged, Except.ok.injEq, exists_eq_left',
    mem_map_fst_filter_enum, decide_eq_true_eq]

end KORA
